import Mathlib

/-!
Shallow embedding of `src/apiwrapper.py`, a small Flask wrapper around the
browser-use automation agent.  JSON values are modelled by `Json`; the
external agent is an opaque behaviour `AgentBehavior` mapping the constructed
agent call to either a stringified result (`Except.ok`) or a stringified
exception (`Except.error`).  Python-level dynamic failures (AttributeError,
TypeError, ...) that the handlers catch with `except Exception` are modelled
with `Except String`; the handler bodies turn them into 500 responses exactly
where the source's try/except does.  Wall-clock time is passed in explicitly
(`now_ms` for `int(time.time() * 1000)`, `now` for `time.time()` at
background-task completion).
-/

/-- JSON values as delivered by `request.get_json()`.  Numbers are modelled
as integers (no claim involves fractional values); objects are association
lists with the unique-key property of a parsed Python dict. -/
inductive Json where
  | null : Json
  | bool : Bool → Json
  | num : Int → Json
  | str : String → Json
  | arr : List Json → Json
  | obj : List (String × Json) → Json

/-- Field lookup in a parsed JSON object (Python dict indexing / `in`). -/
def dictGet : List (String × Json) → String → Option Json
  | [], _ => none
  | (k, v) :: rest, key => if k = key then some v else dictGet rest key

/-- Python truthiness of a JSON-derived value (`if not data`). -/
def Json.truthy : Json → Bool
  | .null => false
  | .bool b => b
  | .num n => n ≠ 0
  | .str s => s ≠ ""
  | .arr xs => ¬xs.isEmpty
  | .obj fs => ¬fs.isEmpty

/-- Python type name of a JSON-derived value, used in exception texts. -/
def pyTypeName : Json → String
  | .null => "NoneType"
  | .bool _ => "bool"
  | .num _ => "int"
  | .str _ => "str"
  | .arr _ => "list"
  | .obj _ => "dict"

/-- Substring test (`needle in haystack` for Python strings). -/
def pySubstr (needle haystack : String) : Bool :=
  (haystack.splitOn needle).length ≠ 1

/-- Python `key in data` for a JSON-derived value: key membership for dicts,
substring for strings, element membership for lists, `TypeError` otherwise. -/
def pyContains (key : String) : Json → Except String Bool
  | .obj fs => .ok (dictGet fs key).isSome
  | .str s => .ok (pySubstr key s)
  | .arr xs => .ok (xs.any fun j => match j with | .str s => s = key | _ => false)
  | j => .error ("argument of type '" ++ pyTypeName j ++ "' is not iterable")

/-- Python `data[key]` with a string key. -/
def dictSubscript (j : Json) (key : String) : Except String Json :=
  match j with
  | .obj fs =>
      match dictGet fs key with
      | some v => .ok v
      | none => .error ("'" ++ key ++ "'")
  | .arr _ => .error "list indices must be integers or slices, not str"
  | .str _ => .error "string indices must be integers"
  | j => .error ("'" ++ pyTypeName j ++ "' object is not subscriptable")

/-- Python `data.get(key, default)`: defined for dicts, `AttributeError`
(has no attribute `get`) for every other value. -/
def dictGetMethod (j : Json) (key : String) (default : Json) : Except String Json :=
  match j with
  | .obj fs => .ok ((dictGet fs key).getD default)
  | j => .error ("'" ++ pyTypeName j ++ "' object has no attribute 'get'")

/-- Escaping of one character inside a JSON string literal, as `json.dumps`
prints it. -/
def jsonEscapeChar (c : Char) : String :=
  if c = '"' then "\\\""
  else if c = '\\' then "\\\\"
  else if c = '\n' then "\\n"
  else if c = '\t' then "\\t"
  else if c = '\r' then "\\r"
  else String.singleton c

/-- Escaping of a JSON string body, as `json.dumps` prints it. -/
def jsonEscape (s : String) : String :=
  String.join (s.data.map jsonEscapeChar)

mutual

/-- `json.dumps` of a JSON-derived value, with CPython's default
separators (`", "` and `": "`). -/
def jsonDumps : Json → String
  | .null => "null"
  | .bool b => if b then "true" else "false"
  | .num n => toString n
  | .str s => "\"" ++ jsonEscape s ++ "\""
  | .arr xs => "[" ++ jsonDumpsList xs ++ "]"
  | .obj fs => "\x7b" ++ jsonDumpsFields fs ++ "\x7d"

/-- Comma-separated dump of a JSON array body. -/
def jsonDumpsList : List Json → String
  | [] => ""
  | [j] => jsonDumps j
  | j :: rest => jsonDumps j ++ ", " ++ jsonDumpsList rest

/-- Comma-separated dump of a JSON object body. -/
def jsonDumpsFields : List (String × Json) → String
  | [] => ""
  | [(k, v)] => "\"" ++ jsonEscape k ++ "\": " ++ jsonDumps v
  | (k, v) :: rest =>
      "\"" ++ jsonEscape k ++ "\": " ++ jsonDumps v ++ ", " ++ jsonDumpsFields rest

end

mutual

/-- Python `repr` of a JSON-derived value (single-quoted strings,
`True`/`False`/`None`). -/
def pyRepr : Json → String
  | .null => "None"
  | .bool b => if b then "True" else "False"
  | .num n => toString n
  | .str s => "'" ++ s ++ "'"
  | .arr xs => "[" ++ pyReprList xs ++ "]"
  | .obj fs => "\x7b" ++ pyReprFields fs ++ "\x7d"

/-- Comma-separated `repr` of a Python list body. -/
def pyReprList : List Json → String
  | [] => ""
  | [j] => pyRepr j
  | j :: rest => pyRepr j ++ ", " ++ pyReprList rest

/-- Comma-separated `repr` of a Python dict body. -/
def pyReprFields : List (String × Json) → String
  | [] => ""
  | [(k, v)] => "'" ++ k ++ "': " ++ pyRepr v
  | (k, v) :: rest => "'" ++ k ++ "': " ++ pyRepr v ++ ", " ++ pyReprFields rest

end

/-- Python `str` of a JSON-derived value, as an f-string interpolates it. -/
def pyStr : Json → String
  | .str s => s
  | .num n => toString n
  | .bool b => if b then "True" else "False"
  | .null => "None"
  | j => pyRepr j

/-- The process-wide `results_store` dict: task id keyed records. -/
def Store := List (String × Json)

/-- Lookup in `results_store` (keys are unique by construction of
`storeSet`). -/
def storeLookup : Store → String → Option Json
  | [], _ => none
  | (k, v) :: rest, key => if k = key then some v else storeLookup rest key

/-- Python dict assignment `results_store[task_id] = record`: overwrite the
existing entry or insert a new one. -/
def storeSet : Store → String → Json → Store
  | [], key, v => [(key, v)]
  | (k, w) :: rest, key, v =>
      if k = key then (key, v) :: rest else (k, w) :: storeSet rest key v

/-- One construction-plus-run of the external `Agent`: the keyword arguments
the wrapper passes (`task`, `llm`, `use_vision`, `save_conversation_path`). -/
structure AgentCall where
  task : Json
  llm : Json
  use_vision : Bool
  save_conversation_path : Option String

/-- Opaque behaviour of the external agent library: `.ok r` models a normal
return whose `str()` is `r`, `.error e` models any raised exception whose
`str()` is `e` (construction, event loop, or `agent.run()` failures alike). -/
def AgentBehavior := AgentCall → Except String String

/-- An HTTP response: status code and JSON body. -/
structure HttpResponse where
  status : Nat
  body : Json

/-- `run_browser_task` (apiwrapper.py:14-43): run the agent for a dispatched
background task and store a `completed` or `error` record under `task_id`.
`now` is the value of `time.time()` when the record is written.  The
function is total: the source's bare `except Exception` means no failure is
re-raised out of the thread. -/
def run_browser_task (agent : AgentBehavior) (now : Int) (store : Store)
    (task_id : String) (prompt model_name : Json) : Store :=
  match agent ⟨prompt, model_name, true,
      some ("./conversations/" ++ task_id ++ ".json")⟩ with
  | .ok result =>
      storeSet store task_id (Json.obj
        [("status", Json.str "completed"), ("result", Json.str result),
         ("timestamp", Json.num now)])
  | .error e =>
      storeSet store task_id (Json.obj
        [("status", Json.str "error"), ("error", Json.str e),
         ("timestamp", Json.num now)])

/-- `health_check` (apiwrapper.py:45-48). -/
def health_check : HttpResponse :=
  ⟨200, Json.obj [("status", Json.str "healthy"),
                  ("service", Json.str "browser-use-api")]⟩

/-- A background thread started by the async branch of `/browser/run`:
the arguments handed to `run_browser_task`. -/
structure DispatchedTask where
  task_id : String
  prompt : Json
  model : Json

/-- Everything observable about one `/browser/run` request: the HTTP
response, the inline agent invocations, the background threads started, and
the `results_store` after the handler returns. -/
structure RunOutcome where
  resp : HttpResponse
  calls : List AgentCall
  dispatched : List DispatchedTask
  store : Store

/-- The request-processing logic of `run_browser_automation`
(apiwrapper.py:50-106), which never reads or writes `results_store`:
response, inline agent calls, and dispatched background tasks.  `now_ms`
is `int(time.time() * 1000)` at dispatch time. -/
def runBrowserRequest (agent : AgentBehavior) (now_ms : Int)
    (body : Option Json) :
    HttpResponse × List AgentCall × List DispatchedTask :=
  match body with
  | none =>
      (⟨400, Json.obj [("error", Json.str "Missing 'prompt' in request body")]⟩,
       [], [])
  | some data =>
    if data.truthy = false then
      (⟨400, Json.obj [("error", Json.str "Missing 'prompt' in request body")]⟩,
       [], [])
    else
      match pyContains "prompt" data with
      | .error e => (⟨500, Json.obj [("error", Json.str e)]⟩, [], [])
      | .ok false =>
          (⟨400, Json.obj [("error", Json.str "Missing 'prompt' in request body")]⟩,
           [], [])
      | .ok true =>
        match dictSubscript data "prompt" with
        | .error e => (⟨500, Json.obj [("error", Json.str e)]⟩, [], [])
        | .ok prompt =>
          match dictGetMethod data "model" (Json.str "gpt-4o-mini") with
          | .error e => (⟨500, Json.obj [("error", Json.str e)]⟩, [], [])
          | .ok model_name =>
            match dictGetMethod data "async" (Json.bool false) with
            | .error e => (⟨500, Json.obj [("error", Json.str e)]⟩, [], [])
            | .ok is_async =>
              if is_async.truthy then
                (⟨200, Json.obj
                   [("task_id", Json.str ("task_" ++ toString now_ms)),
                    ("status", Json.str "started"),
                    ("message", Json.str
                      "Task started. Use /browser/status/\x7btask_id\x7d to check progress")]⟩,
                 [], [⟨"task_" ++ toString now_ms, prompt, model_name⟩])
              else
                match agent ⟨prompt, model_name, true, none⟩ with
                | .ok result =>
                    (⟨200, Json.obj
                       [("status", Json.str "completed"),
                        ("result", Json.str result), ("prompt", prompt)]⟩,
                     [⟨prompt, model_name, true, none⟩], [])
                | .error e =>
                    (⟨500, Json.obj [("error", Json.str e)]⟩,
                     [⟨prompt, model_name, true, none⟩], [])

/-- `run_browser_automation` (apiwrapper.py:50-106) with the registry state
threaded through: the handler itself never touches `results_store`, so the
store field of the outcome is the incoming store. -/
def run_browser_automation (agent : AgentBehavior) (now_ms : Int)
    (store : Store) (body : Option Json) : RunOutcome :=
  let core := runBrowserRequest agent now_ms body
  ⟨core.1, core.2.1, core.2.2, store⟩

/-- `get_task_status` (apiwrapper.py:108-114): `task_id not in results_store`
gives 404, otherwise the stored record is returned as the 200 body. -/
def get_task_status (store : Store) (task_id : String) : HttpResponse :=
  if (storeLookup store task_id).isNone then
    ⟨404, Json.obj [("error", Json.str "Task not found")]⟩
  else
    ⟨200, (storeLookup store task_id).getD Json.null⟩

/-- Association-list lookup for the `prompts` dict of string templates. -/
def strLookup : List (String × String) → String → Option String
  | [], _ => none
  | (k, v) :: rest, s => if k = s then some v else strLookup rest s

/-- Everything observable about one `/browser/simple` request. -/
structure SimpleOutcome where
  resp : HttpResponse
  calls : List AgentCall

/-- `simple_browser_task` (apiwrapper.py:116-172).  The `prompts` dict
literal is evaluated before `action` is validated, and its `click` entry
calls `extra_data.get(...)`; that lookup is hoisted just above the list
here, preserving Python's evaluation order (the earlier f-strings cannot
fail).  The final `action not in prompts` / `prompts[action]` pair is
modelled by one association-list lookup: `TypeError` for unhashable
actions, `none` for hashable non-keys. -/
def simple_browser_task (agent : AgentBehavior) (body : Option Json) :
    SimpleOutcome :=
  match body with
  | none =>
      ⟨⟨400, Json.obj
         [("error", Json.str "Missing 'action' or 'target' in request body")]⟩, []⟩
  | some data =>
    if data.truthy = false then
      ⟨⟨400, Json.obj
         [("error", Json.str "Missing 'action' or 'target' in request body")]⟩, []⟩
    else
      match pyContains "action" data with
      | .error e => ⟨⟨500, Json.obj [("error", Json.str e)]⟩, []⟩
      | .ok false =>
          ⟨⟨400, Json.obj
             [("error", Json.str "Missing 'action' or 'target' in request body")]⟩, []⟩
      | .ok true =>
        match pyContains "target" data with
        | .error e => ⟨⟨500, Json.obj [("error", Json.str e)]⟩, []⟩
        | .ok false =>
            ⟨⟨400, Json.obj
               [("error", Json.str "Missing 'action' or 'target' in request body")]⟩, []⟩
        | .ok true =>
          match dictSubscript data "action" with
          | .error e => ⟨⟨500, Json.obj [("error", Json.str e)]⟩, []⟩
          | .ok action =>
            match dictSubscript data "target" with
            | .error e => ⟨⟨500, Json.obj [("error", Json.str e)]⟩, []⟩
            | .ok target =>
              match dictGetMethod data "data" (Json.obj []) with
              | .error e => ⟨⟨500, Json.obj [("error", Json.str e)]⟩, []⟩
              | .ok extra_data =>
                match dictGetMethod extra_data "element" (Json.str "submit button") with
                | .error e => ⟨⟨500, Json.obj [("error", Json.str e)]⟩, []⟩
                | .ok elementVal =>
                  let prompts : List (String × String) :=
                    [("search", "Search for '" ++ pyStr target ++
                        "' on Google and return the top 3 results with titles and URLs"),
                     ("scrape", "Go to " ++ pyStr target ++
                        " and extract the main content, headings, and key information from the page"),
                     ("click", "Go to " ++ pyStr target ++
                        " and click on the element: " ++ pyStr elementVal),
                     ("fill_form", "Go to " ++ pyStr target ++
                        " and fill out the form with this data: " ++ jsonDumps extra_data)]
                  match action with
                  | .arr _ => ⟨⟨500, Json.obj
                      [("error", Json.str "unhashable type: 'list'")]⟩, []⟩
                  | .obj _ => ⟨⟨500, Json.obj
                      [("error", Json.str "unhashable type: 'dict'")]⟩, []⟩
                  | action =>
                    match (match action with
                           | .str s => strLookup prompts s
                           | _ => none) with
                    | none =>
                        ⟨⟨400, Json.obj [("error", Json.str
                            ("Unsupported action: " ++ pyStr action))]⟩, []⟩
                    | some prompt =>
                      match agent ⟨Json.str prompt, Json.str "gpt-4o-mini", true, none⟩ with
                      | .ok result =>
                          ⟨⟨200, Json.obj
                             [("status", Json.str "completed"), ("action", action),
                              ("target", target), ("result", Json.str result)]⟩,
                           [⟨Json.str prompt, Json.str "gpt-4o-mini", true, none⟩]⟩
                      | .error e =>
                          ⟨⟨500, Json.obj [("error", Json.str e)]⟩,
                           [⟨Json.str prompt, Json.str "gpt-4o-mini", true, none⟩]⟩

/-- Registry states reachable in one serving process: initially empty, and
mutated only by background-task completion (`run_browser_task`); the
`/browser/run` handler itself leaves the store as it found it. -/
inductive Reachable : Store → Prop where
  | init : Reachable []
  | handle (agent : AgentBehavior) (now_ms : Int) (body : Option Json)
      (s : Store) : Reachable s →
      Reachable ((run_browser_automation agent now_ms s body).store)
  | background (agent : AgentBehavior) (now : Int) (task_id : String)
      (prompt model_name : Json) (s : Store) : Reachable s →
      Reachable (run_browser_task agent now s task_id prompt model_name)

/-- The `status` field of a stored record. -/
def recordStatus (r : Json) : Option Json :=
  match r with
  | .obj fs => dictGet fs "status"
  | _ => none

/-- A dict with a bound key is nonempty, hence truthy. -/
lemma truthy_of_dictGet (fs : List (String × Json)) (key : String) (v : Json)
    (h : dictGet fs key = some v) : (Json.obj fs).truthy = true := by
  cases fs with
  | nil => simp [dictGet] at h
  | cons kv rest => simp [Json.truthy]

/-- Lookup after assignment: the assigned key reads back the new record and
every other key is untouched. -/
lemma storeLookup_storeSet (s : Store) (key : String) (v : Json) (id : String) :
    storeLookup (storeSet s key v) id =
      if key = id then some v else storeLookup s id := by
  induction s with
  | nil => simp [storeSet, storeLookup]
  | cons kv rest ih =>
      obtain ⟨k, w⟩ := kv
      by_cases hk : k = key
      · subst hk
        by_cases hid : k = id
        · simp [storeSet, storeLookup, hid]
        · simp [storeSet, storeLookup, hid]
      · by_cases hid : k = id
        · subst hid
          have hk2 : ¬key = k := fun h => hk h.symm
          simp [storeSet, storeLookup, hk, hk2]
        · simp [storeSet, storeLookup, hk, hid, ih]

/-- C10: `/health` ignores all state and returns the fixed payload. -/
theorem health_check_contract :
    health_check = ⟨200, Json.obj [("status", Json.str "healthy"),
                                   ("service", Json.str "browser-use-api")]⟩ := rfl

/-- C4: `/browser/status/<task_id>` answers 404 `Task not found` when the id
has no registry entry, and otherwise 200 with exactly the stored record. -/
theorem status_lookup_contract (store : Store) (task_id : String) :
    (storeLookup store task_id = none →
      get_task_status store task_id =
        ⟨404, Json.obj [("error", Json.str "Task not found")]⟩) ∧
    (∀ r, storeLookup store task_id = some r →
      get_task_status store task_id = ⟨200, r⟩) := by
  constructor
  · intro h
    simp [get_task_status, h]
  · intro r h
    simp [get_task_status, h]

/-- Witness for C4 at a concrete empty and single-record registry. -/
theorem status_lookup_contract_w :
    get_task_status [] "task_1" =
      ⟨404, Json.obj [("error", Json.str "Task not found")]⟩ ∧
    get_task_status [("task_1", Json.obj [("status", Json.str "completed")])]
        "task_1" = ⟨200, Json.obj [("status", Json.str "completed")]⟩ :=
  ⟨(status_lookup_contract [] "task_1").1 rfl,
   (status_lookup_contract
      [("task_1", Json.obj [("status", Json.str "completed")])] "task_1").2 _ rfl⟩

/-- C3: when a background execution finishes it writes exactly one record,
under its task id: `completed` with the stringified result on agent success,
`error` with the stringified failure on any agent failure, both stamped with
the completion time, which is at least the dispatch time; every other
registry key is untouched, and no failure escapes (`run_browser_task` is a
total function into stores). -/
theorem background_completion_record (agent : AgentBehavior)
    (now dispatch_time : Int) (store : Store) (task_id : String)
    (prompt model_name : Json) (h : dispatch_time ≤ now) :
    (∀ id, id ≠ task_id →
      storeLookup (run_browser_task agent now store task_id prompt model_name) id
        = storeLookup store id) ∧
    (∃ r, storeLookup (run_browser_task agent now store task_id prompt model_name)
        task_id = some r ∧
      ((∃ res, agent ⟨prompt, model_name, true,
            some ("./conversations/" ++ task_id ++ ".json")⟩ = .ok res ∧
          r = Json.obj [("status", Json.str "completed"),
                        ("result", Json.str res), ("timestamp", Json.num now)]) ∨
       (∃ e, agent ⟨prompt, model_name, true,
            some ("./conversations/" ++ task_id ++ ".json")⟩ = .error e ∧
          r = Json.obj [("status", Json.str "error"),
                        ("error", Json.str e), ("timestamp", Json.num now)])) ∧
      dispatch_time ≤ now) := by
  constructor
  · intro id hid
    unfold run_browser_task
    cases hx : agent ⟨prompt, model_name, true,
        some ("./conversations/" ++ task_id ++ ".json")⟩ with
    | ok res => rw [storeLookup_storeSet, if_neg (fun hh => hid hh.symm)]
    | error e => rw [storeLookup_storeSet, if_neg (fun hh => hid hh.symm)]
  · unfold run_browser_task
    cases hx : agent ⟨prompt, model_name, true,
        some ("./conversations/" ++ task_id ++ ".json")⟩ with
    | ok res =>
        refine ⟨_, ?_, Or.inl ⟨res, rfl, rfl⟩, h⟩
        rw [storeLookup_storeSet, if_pos rfl]
    | error e =>
        refine ⟨_, ?_, Or.inr ⟨e, rfl, rfl⟩, h⟩
        rw [storeLookup_storeSet, if_pos rfl]

/-- Witness for C3: a succeeding agent dispatched at time 3 completing at
time 5 writes the `completed` record under `task_1`. -/
theorem background_completion_record_w :
    (∀ id, id ≠ "task_1" →
      storeLookup (run_browser_task (fun _ => Except.ok "done") 5 []
          "task_1" (Json.str "p") (Json.str "gpt-4o-mini")) id
        = storeLookup [] id) ∧
    (∃ r, storeLookup (run_browser_task (fun _ => Except.ok "done") 5 []
          "task_1" (Json.str "p") (Json.str "gpt-4o-mini")) "task_1" = some r ∧
      ((∃ res, (fun (_ : AgentCall) => Except.ok (ε := String) "done") ⟨Json.str "p",
            Json.str "gpt-4o-mini", true,
            some ("./conversations/" ++ "task_1" ++ ".json")⟩ = .ok res ∧
          r = Json.obj [("status", Json.str "completed"),
                        ("result", Json.str res), ("timestamp", Json.num 5)]) ∨
       (∃ e, (fun (_ : AgentCall) => Except.ok (ε := String) "done") ⟨Json.str "p",
            Json.str "gpt-4o-mini", true,
            some ("./conversations/" ++ "task_1" ++ ".json")⟩ = .error e ∧
          r = Json.obj [("status", Json.str "error"),
                        ("error", Json.str e), ("timestamp", Json.num 5)])) ∧
      (3 : Int) ≤ 5) :=
  background_completion_record (fun _ => Except.ok "done") 5 3 [] "task_1"
    (Json.str "p") (Json.str "gpt-4o-mini") (by decide)

/-- C2: no pending placeholder ever reaches the registry: every record in a
reachable registry state has status `completed` or `error`; the
`/browser/run` handler leaves the registry exactly as it found it; and a
status lookup for a freshly dispatched task id, made before the background
execution writes, answers 404 `Task not found`. -/
theorem registry_records_terminal :
    (∀ s, Reachable s → ∀ id r, storeLookup s id = some r →
      recordStatus r = some (Json.str "completed") ∨
      recordStatus r = some (Json.str "error")) ∧
    (∀ (agent : AgentBehavior) (now_ms : Int) (s : Store) (body : Option Json),
      (run_browser_automation agent now_ms s body).store = s) ∧
    (∀ (agent : AgentBehavior) (now_ms : Int) (s : Store) (body : Option Json)
      (d : DispatchedTask),
      d ∈ (run_browser_automation agent now_ms s body).dispatched →
      storeLookup s d.task_id = none →
      get_task_status ((run_browser_automation agent now_ms s body).store)
          d.task_id
        = ⟨404, Json.obj [("error", Json.str "Task not found")]⟩) := by
  have hstore : ∀ (agent : AgentBehavior) (now_ms : Int) (s : Store)
      (body : Option Json), (run_browser_automation agent now_ms s body).store = s :=
    fun _ _ _ _ => rfl
  refine ⟨?_, hstore, ?_⟩
  · intro s hs
    induction hs with
    | init => intro id r h; simp [storeLookup] at h
    | handle agent now_ms body s _ ih => rw [hstore]; exact ih
    | background agent now task_id prompt model_name s _ ih =>
        intro id r h
        unfold run_browser_task at h
        cases hx : agent ⟨prompt, model_name, true,
            some ("./conversations/" ++ task_id ++ ".json")⟩ with
        | ok res =>
            rw [hx, storeLookup_storeSet] at h
            by_cases hid : task_id = id
            · rw [if_pos hid] at h
              cases h
              left; rfl
            · rw [if_neg hid] at h
              exact ih id r h
        | error e =>
            rw [hx, storeLookup_storeSet] at h
            by_cases hid : task_id = id
            · rw [if_pos hid] at h
              cases h
              right; rfl
            · rw [if_neg hid] at h
              exact ih id r h
  · intro agent now_ms s body d _ hnone
    rw [hstore]
    simp [get_task_status, hnone]

/-- Witness for C2: a completed record in a reachable state is terminal; the
handler, dispatching `task_7` into an empty registry at millisecond 7,
leaves the registry empty; a lookup of `task_7` before the background write
answers 404. -/
theorem registry_records_terminal_w :
    (recordStatus (Json.obj [("status", Json.str "completed"),
        ("result", Json.str "done"), ("timestamp", Json.num 5)])
        = some (Json.str "completed") ∨
     recordStatus (Json.obj [("status", Json.str "completed"),
        ("result", Json.str "done"), ("timestamp", Json.num 5)])
        = some (Json.str "error")) ∧
    (run_browser_automation (fun _ => Except.ok "r") 7 []
        (some (Json.obj [("prompt", Json.str "x"),
                         ("async", Json.bool true)]))).store = [] ∧
    get_task_status
        ((run_browser_automation (fun _ => Except.ok "r") 7 []
            (some (Json.obj [("prompt", Json.str "x"),
                             ("async", Json.bool true)]))).store)
        ("task_" ++ toString (7 : Int))
      = ⟨404, Json.obj [("error", Json.str "Task not found")]⟩ :=
  ⟨registry_records_terminal.1
      (run_browser_task (fun _ => Except.ok "done") 5 [] "task_1"
        (Json.str "p") (Json.str "m"))
      (Reachable.background (fun _ => Except.ok "done") 5 "task_1"
        (Json.str "p") (Json.str "m") [] Reachable.init)
      "task_1" _ rfl,
   registry_records_terminal.2.1 (fun _ => Except.ok "r") 7 []
      (some (Json.obj [("prompt", Json.str "x"), ("async", Json.bool true)])),
   registry_records_terminal.2.2 (fun _ => Except.ok "r") 7 []
      (some (Json.obj [("prompt", Json.str "x"), ("async", Json.bool true)]))
      ⟨"task_" ++ toString (7 : Int), Json.str "x", Json.str "gpt-4o-mini"⟩
      (List.Mem.head _) rfl⟩

/-- Evaluation of `/browser/run` on a JSON object carrying a prompt and a
literal `async: true`: the async branch is taken. -/
lemma runBrowserRequest_async_eq (agent : AgentBehavior) (now_ms : Int)
    (fs : List (String × Json)) (p : Json)
    (hp : dictGet fs "prompt" = some p)
    (ha : dictGet fs "async" = some (Json.bool true)) :
    runBrowserRequest agent now_ms (some (Json.obj fs)) =
      (⟨200, Json.obj
         [("task_id", Json.str ("task_" ++ toString now_ms)),
          ("status", Json.str "started"),
          ("message", Json.str
            "Task started. Use /browser/status/\x7btask_id\x7d to check progress")]⟩,
       [], [⟨"task_" ++ toString now_ms, p,
             (dictGet fs "model").getD (Json.str "gpt-4o-mini")⟩]) := by
  have hne : fs ≠ [] := by
    intro h
    subst h
    simp [dictGet] at hp
  simp [runBrowserRequest, pyContains, hp, dictSubscript, dictGetMethod, ha,
    Json.truthy, hne]

/-- C8: `/browser/run` with a prompt and `async: true` answers 200 with
`task_id`, `started`, and a message, without any inline agent call (the
response does not depend on the agent at all); the task id is the string
`task_` followed by the dispatch epoch milliseconds, so two dispatches in
the same millisecond receive the same task id (last conjunct). -/
theorem async_dispatch_contract (agent : AgentBehavior) (now_ms : Int)
    (store : Store) (fs : List (String × Json)) (p : Json)
    (hp : dictGet fs "prompt" = some p)
    (ha : dictGet fs "async" = some (Json.bool true)) :
    (run_browser_automation agent now_ms store (some (Json.obj fs))).resp =
      ⟨200, Json.obj
        [("task_id", Json.str ("task_" ++ toString now_ms)),
         ("status", Json.str "started"),
         ("message", Json.str
           "Task started. Use /browser/status/\x7btask_id\x7d to check progress")]⟩ ∧
    (run_browser_automation agent now_ms store (some (Json.obj fs))).calls = [] ∧
    (run_browser_automation agent now_ms store (some (Json.obj fs))).dispatched =
      [⟨"task_" ++ toString now_ms, p,
        (dictGet fs "model").getD (Json.str "gpt-4o-mini")⟩] ∧
    (∀ (agent2 : AgentBehavior) (store2 : Store) (fs2 : List (String × Json))
        (p2 : Json), dictGet fs2 "prompt" = some p2 →
      dictGet fs2 "async" = some (Json.bool true) →
      ∀ d1 d2,
        d1 ∈ (run_browser_automation agent now_ms store (some (Json.obj fs))).dispatched →
        d2 ∈ (run_browser_automation agent2 now_ms store2 (some (Json.obj fs2))).dispatched →
        d1.task_id = d2.task_id) := by
  have h1 := runBrowserRequest_async_eq agent now_ms fs p hp ha
  refine ⟨?_, ?_, ?_, ?_⟩
  · show (runBrowserRequest agent now_ms (some (Json.obj fs))).1 = _
    rw [h1]
  · show (runBrowserRequest agent now_ms (some (Json.obj fs))).2.1 = _
    rw [h1]
  · show (runBrowserRequest agent now_ms (some (Json.obj fs))).2.2 = _
    rw [h1]
  · intro agent2 store2 fs2 p2 hp2 ha2 d1 d2 hd1 hd2
    have h2 := runBrowserRequest_async_eq agent2 now_ms fs2 p2 hp2 ha2
    have e1 : (run_browser_automation agent now_ms store
        (some (Json.obj fs))).dispatched =
        [⟨"task_" ++ toString now_ms, p,
          (dictGet fs "model").getD (Json.str "gpt-4o-mini")⟩] := by
      show (runBrowserRequest agent now_ms (some (Json.obj fs))).2.2 = _
      rw [h1]
    have e2 : (run_browser_automation agent2 now_ms store2
        (some (Json.obj fs2))).dispatched =
        [⟨"task_" ++ toString now_ms, p2,
          (dictGet fs2 "model").getD (Json.str "gpt-4o-mini")⟩] := by
      show (runBrowserRequest agent2 now_ms (some (Json.obj fs2))).2.2 = _
      rw [h2]
    rw [e1] at hd1
    rw [e2] at hd2
    rcases List.mem_singleton.1 hd1 with rfl
    rcases List.mem_singleton.1 hd2 with rfl
    rfl

/-- Witness for C8 at millisecond 7: two concurrent dispatches both get task
id `task_7`. -/
theorem async_dispatch_contract_w :
    (run_browser_automation (fun _ => Except.error "boom") 7 []
        (some (Json.obj [("prompt", Json.str "x"),
                         ("async", Json.bool true)]))).resp =
      ⟨200, Json.obj
        [("task_id", Json.str "task_7"), ("status", Json.str "started"),
         ("message", Json.str
           "Task started. Use /browser/status/\x7btask_id\x7d to check progress")]⟩ ∧
    (run_browser_automation (fun _ => Except.error "boom") 7 []
        (some (Json.obj [("prompt", Json.str "x"),
                         ("async", Json.bool true)]))).calls = [] ∧
    (run_browser_automation (fun _ => Except.error "boom") 7 []
        (some (Json.obj [("prompt", Json.str "x"),
                         ("async", Json.bool true)]))).dispatched =
      [⟨"task_7", Json.str "x", Json.str "gpt-4o-mini"⟩] ∧
    (DispatchedTask.mk "task_7" (Json.str "x") (Json.str "gpt-4o-mini")).task_id
      = (DispatchedTask.mk "task_7" (Json.str "y") (Json.str "m2")).task_id := by
  have h := async_dispatch_contract (fun _ => Except.error "boom") 7 []
    [("prompt", Json.str "x"), ("async", Json.bool true)] (Json.str "x") rfl rfl
  refine ⟨h.1, h.2.1, h.2.2.1, ?_⟩
  exact h.2.2.2 (fun _ => Except.ok "r") []
    [("prompt", Json.str "y"), ("model", Json.str "m2"),
     ("async", Json.bool true)] (Json.str "y") rfl rfl
    ⟨"task_7", Json.str "x", Json.str "gpt-4o-mini"⟩
    ⟨"task_7", Json.str "y", Json.str "m2"⟩
    (h.2.2.1 ▸ List.Mem.head _) (List.Mem.head _)

/-- Evaluation of `/browser/run` on a JSON object carrying a prompt with the
async flag absent or `false`: the synchronous branch runs the agent inline. -/
lemma runBrowserRequest_sync_eq (agent : AgentBehavior) (now_ms : Int)
    (fs : List (String × Json)) (p : Json)
    (hp : dictGet fs "prompt" = some p)
    (ha : dictGet fs "async" = none ∨ dictGet fs "async" = some (Json.bool false)) :
    runBrowserRequest agent now_ms (some (Json.obj fs)) =
      (match agent ⟨p, (dictGet fs "model").getD (Json.str "gpt-4o-mini"),
          true, none⟩ with
       | .ok result =>
           (⟨200, Json.obj [("status", Json.str "completed"),
              ("result", Json.str result), ("prompt", p)]⟩,
            [⟨p, (dictGet fs "model").getD (Json.str "gpt-4o-mini"), true, none⟩],
            [])
       | .error e =>
           (⟨500, Json.obj [("error", Json.str e)]⟩,
            [⟨p, (dictGet fs "model").getD (Json.str "gpt-4o-mini"), true, none⟩],
            [])) := by
  have hne : fs ≠ [] := by
    intro h
    subst h
    simp [dictGet] at hp
  rcases ha with ha | ha <;>
    simp [runBrowserRequest, pyContains, hp, dictSubscript, dictGetMethod, ha,
      Json.truthy, hne]

/-- C5: `/browser/run` with a prompt and the async flag absent or `false`
invokes the agent inline exactly once; agent success yields 200 with
`completed`, the stringified result, and the request prompt, agent failure
yields 500 with the stringified failure, and 500 is answered exactly when
the agent fails. -/
theorem sync_run_contract (agent : AgentBehavior) (now_ms : Int)
    (store : Store) (fs : List (String × Json)) (p : Json)
    (hp : dictGet fs "prompt" = some p)
    (ha : dictGet fs "async" = none ∨ dictGet fs "async" = some (Json.bool false)) :
    (∀ r, agent ⟨p, (dictGet fs "model").getD (Json.str "gpt-4o-mini"),
        true, none⟩ = .ok r →
      (run_browser_automation agent now_ms store (some (Json.obj fs))).resp =
        ⟨200, Json.obj [("status", Json.str "completed"),
          ("result", Json.str r), ("prompt", p)]⟩) ∧
    (∀ e, agent ⟨p, (dictGet fs "model").getD (Json.str "gpt-4o-mini"),
        true, none⟩ = .error e →
      (run_browser_automation agent now_ms store (some (Json.obj fs))).resp =
        ⟨500, Json.obj [("error", Json.str e)]⟩) ∧
    (run_browser_automation agent now_ms store (some (Json.obj fs))).calls =
      [⟨p, (dictGet fs "model").getD (Json.str "gpt-4o-mini"), true, none⟩] ∧
    (run_browser_automation agent now_ms store (some (Json.obj fs))).dispatched
      = [] ∧
    ((run_browser_automation agent now_ms store (some (Json.obj fs))).resp.status
        = 500 ↔
      ∃ e, agent ⟨p, (dictGet fs "model").getD (Json.str "gpt-4o-mini"),
        true, none⟩ = .error e) := by
  have hne : fs ≠ [] := by
    intro h
    subst h
    simp [dictGet] at hp
  rcases ha with ha | ha <;>
    cases hx : agent ⟨p, (dictGet fs "model").getD (Json.str "gpt-4o-mini"),
        true, none⟩ <;>
    simp [run_browser_automation, runBrowserRequest, pyContains, hp,
      dictSubscript, dictGetMethod, ha, Json.truthy, hne, hx]

/-- Witness for C5: a succeeding agent gives 200 `completed` (async absent),
a failing agent gives 500 with the stringified failure (async `false`). -/
theorem sync_run_contract_w :
    (run_browser_automation (fun _ => Except.ok "done") 0 []
        (some (Json.obj [("prompt", Json.str "hi")]))).resp =
      ⟨200, Json.obj [("status", Json.str "completed"),
        ("result", Json.str "done"), ("prompt", Json.str "hi")]⟩ ∧
    (run_browser_automation (fun _ => Except.error "boom") 0 []
        (some (Json.obj [("prompt", Json.str "hi"),
                         ("async", Json.bool false)]))).resp =
      ⟨500, Json.obj [("error", Json.str "boom")]⟩ ∧
    (run_browser_automation (fun _ => Except.ok "done") 0 []
        (some (Json.obj [("prompt", Json.str "hi")]))).calls =
      [⟨Json.str "hi", Json.str "gpt-4o-mini", true, none⟩] ∧
    (run_browser_automation (fun _ => Except.error "boom") 0 []
        (some (Json.obj [("prompt", Json.str "hi"),
                         ("async", Json.bool false)]))).resp.status = 500 := by
  have h1 := sync_run_contract (fun _ => Except.ok "done") 0 []
    [("prompt", Json.str "hi")] (Json.str "hi") rfl (Or.inl rfl)
  have h2 := sync_run_contract (fun _ => Except.error "boom") 0 []
    [("prompt", Json.str "hi"), ("async", Json.bool false)] (Json.str "hi")
    rfl (Or.inr rfl)
  exact ⟨h1.1 "done" rfl, h2.2.1 "boom" rfl, h1.2.2.1,
    h2.2.2.2.2.mpr ⟨"boom", rfl⟩⟩

/-- Counterexample to C6 as stated: the JSON body `5` has no `prompt` field,
yet `/browser/run` answers 500, not 400 — `'prompt' not in data` raises
`TypeError` on a non-container truthy body, which the handler's
`except Exception` turns into a 500. -/
theorem missing_prompt_counterexample :
    (run_browser_automation (fun _ => Except.ok "r") 0 []
        (some (Json.num 5))).resp =
      ⟨500, Json.obj [("error",
        Json.str "argument of type 'int' is not iterable")]⟩ ∧
    (run_browser_automation (fun _ => Except.ok "r") 0 []
        (some (Json.num 5))).resp.status ≠ 400 ∧
    (run_browser_automation (fun _ => Except.ok "r") 0 []
        (some (Json.num 5))).calls = [] ∧
    (run_browser_automation (fun _ => Except.ok "r") 0 []
        (some (Json.num 5))).dispatched = [] :=
  ⟨rfl, by decide, rfl, rfl⟩

/-- C6 amended: for every `/browser/run` request whose body is absent or
falsy (`null`, `false`, `0`, empty string/array/object), or whose body is a
container (object, array, or string) without a `prompt` member, the
response is 400 with an error message and no agent is invoked or
dispatched — identically whatever the async field holds, since validation
precedes the async check; a truthy non-container body (a number, `true`)
instead raises inside `'prompt' not in data` and yields 500. -/
theorem missing_prompt_returns_400 (agent : AgentBehavior) (now_ms : Int)
    (store : Store) (body : Option Json)
    (h : body = none ∨ ∃ j, body = some j ∧
      (j.truthy = false ∨ pyContains "prompt" j = .ok false)) :
    (run_browser_automation agent now_ms store body).resp =
      ⟨400, Json.obj [("error", Json.str "Missing 'prompt' in request body")]⟩ ∧
    (run_browser_automation agent now_ms store body).calls = [] ∧
    (run_browser_automation agent now_ms store body).dispatched = [] := by
  rcases h with rfl | ⟨j, rfl, hj | hj⟩
  · exact ⟨rfl, rfl, rfl⟩
  · refine ⟨?_, ?_, ?_⟩ <;>
      simp [run_browser_automation, runBrowserRequest, hj]
  · by_cases ht : j.truthy
    · refine ⟨?_, ?_, ?_⟩ <;>
        simp [run_browser_automation, runBrowserRequest, ht, hj]
    · refine ⟨?_, ?_, ?_⟩ <;>
        simp [run_browser_automation, runBrowserRequest, ht]

/-- Witness for C6 (amended) on a body that even asks for `async: true`:
still 400, nothing invoked. -/
theorem missing_prompt_returns_400_w :
    (run_browser_automation (fun _ => Except.ok "r") 0 []
        (some (Json.obj [("async", Json.bool true)]))).resp =
      ⟨400, Json.obj [("error", Json.str "Missing 'prompt' in request body")]⟩ ∧
    (run_browser_automation (fun _ => Except.ok "r") 0 []
        (some (Json.obj [("async", Json.bool true)]))).calls = [] ∧
    (run_browser_automation (fun _ => Except.ok "r") 0 []
        (some (Json.obj [("async", Json.bool true)]))).dispatched = [] :=
  missing_prompt_returns_400 (fun _ => Except.ok "r") 0 []
    (some (Json.obj [("async", Json.bool true)]))
    (Or.inr ⟨_, rfl, Or.inr rfl⟩)

/-- Counterexample to C7 as stated: with the unsupported action `bogus` but
a non-mapping `data` field, `/browser/simple` answers 500 (the `click`
template's `extra_data.get` raises before the action is validated), not a
400 naming the action. -/
theorem unsupported_action_counterexample :
    (simple_browser_task (fun _ => Except.ok "r")
        (some (Json.obj [("action", Json.str "bogus"),
          ("target", Json.str "x"), ("data", Json.num 1)]))).resp =
      ⟨500, Json.obj [("error",
        Json.str "'int' object has no attribute 'get'")]⟩ ∧
    (simple_browser_task (fun _ => Except.ok "r")
        (some (Json.obj [("action", Json.str "bogus"),
          ("target", Json.str "x"), ("data", Json.num 1)]))).resp.status ≠ 400 ∧
    (simple_browser_task (fun _ => Except.ok "r")
        (some (Json.obj [("action", Json.str "bogus"),
          ("target", Json.str "x"), ("data", Json.num 1)]))).calls = [] :=
  ⟨rfl, by decide, rfl⟩

/-- C7 amended: for every `/browser/simple` request whose body carries both
the action (a string) and the target, and whose `data` field is absent or a
mapping, an action outside search/scrape/click/fill_form is answered 400
with an error naming the unsupported action, and the agent is never
invoked; when `data` is present and not a mapping the same request instead
answers 500 (see the counterexample), and a missing target is caught
earlier by the missing-field 400. -/
theorem unsupported_action_400 (agent : AgentBehavior)
    (fs es : List (String × Json)) (a : String) (t : Json)
    (ha : dictGet fs "action" = some (Json.str a))
    (ht : dictGet fs "target" = some t)
    (hd : dictGet fs "data" = none ∨ dictGet fs "data" = some (Json.obj es))
    (hu : a ∉ (["search", "scrape", "click", "fill_form"] : List String)) :
    (simple_browser_task agent (some (Json.obj fs))).resp =
      ⟨400, Json.obj [("error",
        Json.str ("Unsupported action: " ++ a))]⟩ ∧
    (simple_browser_task agent (some (Json.obj fs))).calls = [] := by
  have hne : fs ≠ [] := by
    intro h
    subst h
    simp [dictGet] at ha
  simp only [List.mem_cons, List.mem_singleton, not_or] at hu
  have h1 : ¬("search" = a) := fun hh => hu.1 hh.symm
  have h2 : ¬("scrape" = a) := fun hh => hu.2.1 hh.symm
  have h3 : ¬("click" = a) := fun hh => hu.2.2.1 hh.symm
  have h4 : ¬("fill_form" = a) := fun hh => hu.2.2.2.1 hh.symm
  rcases hd with hd | hd <;>
    simp [simple_browser_task, pyContains, ha, ht, hd, dictSubscript,
      dictGetMethod, Json.truthy, hne, strLookup, pyStr, h1, h2, h3, h4]

/-- Witness for C7 (amended): action `bogus` with a target and no data gives
400 naming `bogus`. -/
theorem unsupported_action_400_w :
    (simple_browser_task (fun _ => Except.ok "r")
        (some (Json.obj [("action", Json.str "bogus"),
          ("target", Json.str "x")]))).resp =
      ⟨400, Json.obj [("error", Json.str "Unsupported action: bogus")]⟩ ∧
    (simple_browser_task (fun _ => Except.ok "r")
        (some (Json.obj [("action", Json.str "bogus"),
          ("target", Json.str "x")]))).calls = [] :=
  unsupported_action_400 (fun _ => Except.ok "r")
    [("action", Json.str "bogus"), ("target", Json.str "x")] [] "bogus"
    (Json.str "x") rfl rfl (Or.inl rfl) (by decide)

/-- C9: when the `/browser/simple` body carries action and target but a
`data` field that is not a mapping, the response is 500 with an error body
and the agent is never invoked — for any action value, supported or not,
because all four prompt templates (including the `click` template's
`extra_data.get('element', ...)`) are built before the action is
validated. -/
theorem nonmapping_data_500 (agent : AgentBehavior)
    (fs : List (String × Json)) (a t d : Json)
    (ha : dictGet fs "action" = some a)
    (ht : dictGet fs "target" = some t)
    (hd : dictGet fs "data" = some d)
    (hnm : ∀ es, d ≠ Json.obj es) :
    (simple_browser_task agent (some (Json.obj fs))).resp.status = 500 ∧
    (∃ e, (simple_browser_task agent (some (Json.obj fs))).resp.body =
      Json.obj [("error", Json.str e)]) ∧
    (simple_browser_task agent (some (Json.obj fs))).calls = [] := by
  have hne : fs ≠ [] := by
    intro h
    subst h
    simp [dictGet] at ha
  cases d with
  | obj es => exact absurd rfl (hnm es)
  | null =>
      refine ⟨?_, ⟨"'NoneType' object has no attribute 'get'", ?_⟩, ?_⟩ <;>
        simp [simple_browser_task, pyContains, ha, ht, hd, dictSubscript,
          dictGetMethod, Json.truthy, hne, pyTypeName]
  | bool b =>
      refine ⟨?_, ⟨"'bool' object has no attribute 'get'", ?_⟩, ?_⟩ <;>
        simp [simple_browser_task, pyContains, ha, ht, hd, dictSubscript,
          dictGetMethod, Json.truthy, hne, pyTypeName]
  | num n =>
      refine ⟨?_, ⟨"'int' object has no attribute 'get'", ?_⟩, ?_⟩ <;>
        simp [simple_browser_task, pyContains, ha, ht, hd, dictSubscript,
          dictGetMethod, Json.truthy, hne, pyTypeName]
  | str s =>
      refine ⟨?_, ⟨"'str' object has no attribute 'get'", ?_⟩, ?_⟩ <;>
        simp [simple_browser_task, pyContains, ha, ht, hd, dictSubscript,
          dictGetMethod, Json.truthy, hne, pyTypeName]
  | arr xs =>
      refine ⟨?_, ⟨"'list' object has no attribute 'get'", ?_⟩, ?_⟩ <;>
        simp [simple_browser_task, pyContains, ha, ht, hd, dictSubscript,
          dictGetMethod, Json.truthy, hne, pyTypeName]

/-- Witness for C9: `action: "search"` (which never uses `data`) with
`data: 7` still answers 500 with no agent call. -/
theorem nonmapping_data_500_w :
    (simple_browser_task (fun _ => Except.ok "r")
        (some (Json.obj [("action", Json.str "search"),
          ("target", Json.str "cats"), ("data", Json.num 7)]))).resp.status
      = 500 ∧
    (∃ e, (simple_browser_task (fun _ => Except.ok "r")
        (some (Json.obj [("action", Json.str "search"),
          ("target", Json.str "cats"), ("data", Json.num 7)]))).resp.body =
      Json.obj [("error", Json.str e)]) ∧
    (simple_browser_task (fun _ => Except.ok "r")
        (some (Json.obj [("action", Json.str "search"),
          ("target", Json.str "cats"), ("data", Json.num 7)]))).calls = [] :=
  nonmapping_data_500 (fun _ => Except.ok "r")
    [("action", Json.str "search"), ("target", Json.str "cats"),
     ("data", Json.num 7)]
    (Json.str "search") (Json.str "cats") (Json.num 7) rfl rfl rfl
    (fun _ h => Json.noConfusion h)

/-- `str()` of a string value is the string itself. -/
lemma pyStr_str (s : String) : pyStr (Json.str s) = s := rfl

/-- Evaluation of `/browser/simple` on an object body with a string action
that is a key of the `prompts` template dict: the agent is constructed once
with the looked-up template, model `gpt-4o-mini`, and vision on. -/
lemma simple_calls_eq (agent : AgentBehavior) (fs es : List (String × Json))
    (a t : String)
    (ha : dictGet fs "action" = some (Json.str a))
    (ht : dictGet fs "target" = some (Json.str t))
    (hdd : (dictGet fs "data").getD (Json.obj []) = Json.obj es)
    (P : String)
    (hP : strLookup
      [("search", "Search for '" ++ t ++
         "' on Google and return the top 3 results with titles and URLs"),
       ("scrape", "Go to " ++ t ++
         " and extract the main content, headings, and key information from the page"),
       ("click", "Go to " ++ t ++ " and click on the element: " ++
         pyStr ((dictGet es "element").getD (Json.str "submit button"))),
       ("fill_form", "Go to " ++ t ++
         " and fill out the form with this data: " ++ jsonDumps (Json.obj es))]
      a = some P) :
    (simple_browser_task agent (some (Json.obj fs))).calls =
      [⟨Json.str P, Json.str "gpt-4o-mini", true, none⟩] := by
  have hne : fs ≠ [] := by
    intro h
    subst h
    simp [dictGet] at ha
  cases hx : agent ⟨Json.str P, Json.str "gpt-4o-mini", true, none⟩ <;>
    simp [simple_browser_task, pyContains, ha, ht, hdd, dictSubscript,
      dictGetMethod, Json.truthy, hne, pyStr_str, hP, hx]

/-- C1: for every `/browser/simple` request with a supported action and a
target, the prompt handed to the agent (with model `gpt-4o-mini` and vision
on) is exactly the fixed template for that action; the `click` template uses
`data.element` when it is a string and `submit button` when it is absent,
and the `fill_form` template appends the `data` mapping serialized by
`json.dumps`. -/
theorem simple_prompt_matches_template (agent : AgentBehavior)
    (fs es : List (String × Json)) (a t : String)
    (ha : dictGet fs "action" = some (Json.str a))
    (ht : dictGet fs "target" = some (Json.str t))
    (hd : dictGet fs "data" = none ∧ es = [] ∨
      dictGet fs "data" = some (Json.obj es))
    (hsup : a = "search" ∨ a = "scrape" ∨ a = "click" ∨ a = "fill_form") :
    ∃ P, (simple_browser_task agent (some (Json.obj fs))).calls =
        [⟨Json.str P, Json.str "gpt-4o-mini", true, none⟩] ∧
      (a = "search" → P = "Search for '" ++ t ++
        "' on Google and return the top 3 results with titles and URLs") ∧
      (a = "scrape" → P = "Go to " ++ t ++
        " and extract the main content, headings, and key information from the page") ∧
      (a = "click" → dictGet es "element" = none →
        P = "Go to " ++ t ++ " and click on the element: submit button") ∧
      (a = "click" → ∀ el, dictGet es "element" = some (Json.str el) →
        P = "Go to " ++ t ++ " and click on the element: " ++ el) ∧
      (a = "fill_form" → P = "Go to " ++ t ++
        " and fill out the form with this data: " ++ jsonDumps (Json.obj es)) := by
  have hdd : (dictGet fs "data").getD (Json.obj []) = Json.obj es := by
    rcases hd with ⟨hd1, rfl⟩ | hd1 <;> simp [hd1]
  rcases hsup with rfl | rfl | rfl | rfl
  · exact ⟨_, simple_calls_eq agent fs es _ t ha ht hdd _ rfl,
      fun _ => rfl, fun h => absurd h (by decide), fun h => absurd h (by decide),
      fun h => absurd h (by decide), fun h => absurd h (by decide)⟩
  · exact ⟨_, simple_calls_eq agent fs es _ t ha ht hdd _ rfl,
      fun h => absurd h (by decide), fun _ => rfl, fun h => absurd h (by decide),
      fun h => absurd h (by decide), fun h => absurd h (by decide)⟩
  · refine ⟨_, simple_calls_eq agent fs es _ t ha ht hdd _ rfl,
      fun h => absurd h (by decide), fun h => absurd h (by decide), ?_, ?_,
      fun h => absurd h (by decide)⟩
    · intro _ hel
      simp [hel, pyStr, String.append_assoc]
    · intro _ el hel
      simp [hel, pyStr]
  · exact ⟨_, simple_calls_eq agent fs es _ t ha ht hdd _ rfl,
      fun h => absurd h (by decide), fun h => absurd h (by decide),
      fun h => absurd h (by decide), fun h => absurd h (by decide), fun _ => rfl⟩

/-- Witness for C1 on the spec's own example: `action: "search"`,
`target: "cats"` hands the agent exactly the search template. -/
theorem simple_prompt_matches_template_w :
    (simple_browser_task (fun _ => Except.ok "ok")
        (some (Json.obj [("action", Json.str "search"),
          ("target", Json.str "cats")]))).calls =
      [⟨Json.str
          "Search for 'cats' on Google and return the top 3 results with titles and URLs",
        Json.str "gpt-4o-mini", true, none⟩] := by
  obtain ⟨P, hc, hs, -, -, -, -⟩ :=
    simple_prompt_matches_template (fun _ => Except.ok "ok")
      [("action", Json.str "search"), ("target", Json.str "cats")] []
      "search" "cats" rfl rfl (Or.inl ⟨rfl, rfl⟩) (Or.inl rfl)
  rw [hs rfl] at hc
  exact hc
